import Mathlib

/-!
Shallow embedding of the WebRTC signaling relay in `src/main.ts` (Deno).

The relay manages rooms.  Each room holds at most one host ("server role")
WebSocket and a map from generated guest ids to guest ("client role")
WebSockets, and routes JSON envelopes between them.

Modelling choices, all read off the source:
* A WebSocket connection is identified by a `Nat`.
* Parsed JSON values are the inductive `Json`; numbers are modelled as
  integers (the envelopes the relay inspects only ever compare the
  reserved field against map keys and test JS truthiness, for which the
  integer model of `0` vs non-`0` is faithful).
* `JSON.parse(event.data)` either succeeds or throws, so a raw inbound
  wire message is modelled as `Option Json` (`none` = unparsable data;
  the `catch` branch of the handler fires).
* JS `Map` (`clientConns`, the `rooms` registry) is an association list
  with `Map.get` / `Map.set` / `Map.delete` semantics: `set` overwrites
  the value in place when the key exists and appends otherwise, `get`
  finds the unique entry, `delete` removes it.
* `ws.send` / `ws.close` / `console.log` / `console.error` are observable
  effects, collected in order into a `List Effect`.  `send` carries the
  structured envelope (the source stringifies it on the wire).
* `ws.onmessage = ...` / `ws.onclose = ...` assignments are modelled by an
  explicit `wiring` association list from a connection to the handler the
  room installed on it; a connection with no entry has no handlers, so
  events on it dispatch to nothing (exactly as in the source, where a
  rejected server connection never gets `onmessage`/`onclose`).
* `crypto.randomUUID()` is a platform primitive; the identifier it
  produces is passed in as an argument wherever the source calls it.
-/

namespace SignalRelay

/-- Parsed JSON values (result of a successful `JSON.parse`). -/
inductive Json where
  | null
  | bool (b : Bool)
  | num (n : Int)
  | str (s : String)
  | arr (elems : List Json)
  | obj (fields : List (String × Json))

/-- JS truthiness of a value, as tested by `if (message.clientID)`. -/
def truthy : Json → Bool
  | Json.null => false
  | Json.bool b => b
  | Json.num n => n ≠ 0
  | Json.str s => s ≠ ""
  | Json.arr _ => true
  | Json.obj _ => true

/-- `Map.get k` on an association list: the value of the first entry with
key `k`. -/
def mapGet [DecidableEq κ] (l : List (κ × α)) (k : κ) : Option α :=
  match l with
  | [] => none
  | (a, b) :: t => if a = k then some b else mapGet t k

/-- `Map.set k v` on an association list, also the semantics of a JS
object literal overwriting key `k`: replace the value in place when the
key is present, append otherwise. -/
def mapSet [DecidableEq κ] (l : List (κ × α)) (k : κ) (v : α) : List (κ × α) :=
  if l.any (fun p => p.1 = k) then
    l.map (fun p => if p.1 = k then (k, v) else p)
  else
    l ++ [(k, v)]

/-- `Map.delete k` on an association list. -/
def mapDelete [DecidableEq κ] (l : List (κ × α)) (k : κ) : List (κ × α) :=
  l.filter (fun p => p.1 ≠ k)

/-- JS property access `m.k`: defined field of an object, `undefined`
(here `none`) on every other value.  Pure view, used in statements; the
runtime behaviour including the throw on `null` is `jsGetField`. -/
def getField (m : Json) (k : String) : Option Json :=
  match m with
  | Json.obj fields => mapGet fields k
  | _ => none

/-- JS property access `m.k` as executed at runtime: on a parsed `null`
it throws a TypeError (`Except.error`); on an object it reads the field
(`undefined`, here `none`, when the field is missing); on a number,
string, boolean or array it is `undefined` without throwing (primitives
are boxed, arrays have no such field). -/
def jsGetField (m : Json) (k : String) : Except Unit (Option Json) :=
  match m with
  | Json.null => Except.error ()
  | Json.obj fields => Except.ok (mapGet fields k)
  | _ => Except.ok none

/-- Enumerable own properties contributed by `...x` in an object spread:
an object contributes its fields, an array and a string contribute their
elements/characters under the string keys "0", "1", ...; primitives
contribute nothing. -/
def spreadFields : Json → List (String × Json)
  | Json.obj fields => fields
  | Json.arr elems => elems.enum.map (fun p => (toString p.1, p.2))
  | Json.str s =>
      (s.data.map (fun ch => Json.str (String.singleton ch))).enum.map
        (fun p => (toString p.1, p.2))
  | _ => []

/-- The envelope `\x7b ...message, clientID: clientId \x7d` built in
`sendMessageToServer`: the spread of the parsed payload with the reserved
`clientID` field overwritten (in place when present, appended otherwise). -/
def setClientID (m : Json) (clientId : String) : Json :=
  Json.obj (mapSet (spreadFields m) "clientID" (Json.str clientId))

/-- Observable actions a room performs on the outside world, in order. -/
inductive Effect where
  | send (conn : Nat) (payload : Json)
  | close (conn : Nat)
  | log (tag : String)

/-- The handler pair a room installs on a WebSocket via
`ws.onmessage = ...; ws.onclose = ...`.  The guest handler closure
captures the generated `clientId`. -/
inductive Handler where
  | hostHandler
  | guestHandler (clientId : String)
deriving DecidableEq

/-- State of one `Room` object, plus the handler wiring of its sockets. -/
structure RoomState where
  id : String
  serverConn : Option Nat
  clientConns : List (String × Nat)
  wiring : List (Nat × Handler)

/-- The error envelope sent to a second server connection. -/
def serverExistsError : Json :=
  Json.obj [("type", Json.str "error"), ("data", Json.str "server conn already exists")]

/-- `Room.sendMessageToClient`.  The source declares `clientId: string`,
but TypeScript types are erased: at runtime the value is whatever
`message.clientID` held, so the argument is a `Json` value and a
non-string key never matches a `Map` key (JS `Map` uses SameValueZero). -/
def sendMessageToClient (r : RoomState) (clientId : Json) (message : Json) : List Effect :=
  match clientId with
  | Json.str cid =>
    match mapGet r.clientConns cid with
    | none => [Effect.log "unknown client"]
    | some clientWs => [Effect.send clientWs message]
  | _ => [Effect.log "unknown client"]

/-- `Room.sendMessageToServer`. -/
def sendMessageToServer (r : RoomState) (clientId : String) (message : Json) : List Effect :=
  match r.serverConn with
  | none => [Effect.log "no server connection"]
  | some serverWs => [Effect.send serverWs (setClientID message clientId)]

/-- Body of the host `ws.onmessage` handler installed by
`handleServerConn`: parse, then route only when `message.clientID` is
truthy.  The whole body runs inside the try block, so both a parse
failure and the TypeError thrown by `message.clientID` on a parsed
`null` reach the same catch, which logs. -/
def onHostMessage (r : RoomState) (raw : Option Json) : List Effect :=
  match raw with
  | none => [Effect.log "error processing message from server"]
  | some message =>
    match jsGetField message "clientID" with
    | Except.error _ => [Effect.log "error processing message from server"]
    | Except.ok (some cid) => if truthy cid then sendMessageToClient r cid message else []
    | Except.ok none => []

/-- Body of a guest `ws.onmessage` handler installed by
`handleClientConn`, with the captured `clientId`. -/
def onGuestMessage (r : RoomState) (clientId : String) (raw : Option Json) : List Effect :=
  match raw with
  | none => [Effect.log "error processing message from client"]
  | some message => sendMessageToServer r clientId message

/-- Body of the host `ws.onclose` handler: clear the slot, close every
guest connection, clear the guest map. -/
def onHostClose (r : RoomState) : RoomState × List Effect :=
  ({ r with serverConn := none, clientConns := [] },
   Effect.log "server conn closed" :: r.clientConns.map (fun p => Effect.close p.2))

/-- Body of a guest `ws.onclose` handler: drop the captured id from the
guest map. -/
def onGuestClose (r : RoomState) (clientId : String) : RoomState × List Effect :=
  ({ r with clientConns := mapDelete r.clientConns clientId },
   [Effect.log "client conn closed"])

/-- `Room.handleServerConn`: reject when the slot is occupied (error
envelope, then close, no wiring), otherwise store the socket and wire its
handlers. -/
def handleServerConn (r : RoomState) (ws : Nat) : RoomState × List Effect :=
  match r.serverConn with
  | some _ =>
    (r, [Effect.log "rejected server conn", Effect.send ws serverExistsError, Effect.close ws])
  | none =>
    ({ r with serverConn := some ws, wiring := mapSet r.wiring ws Handler.hostHandler },
     [Effect.log "registered server conn"])

/-- `Room.handleClientConn`; `clientId` is the `crypto.randomUUID()`
result. -/
def handleClientConn (r : RoomState) (ws : Nat) (clientId : String) : RoomState × List Effect :=
  ({ r with
      clientConns := mapSet r.clientConns clientId ws,
      wiring := mapSet r.wiring ws (Handler.guestHandler clientId) },
   [Effect.log "registered client conn"])

/-- Events a room reacts to: the two attach calls from the HTTP layer and
the asynchronous message/close notifications of a socket. -/
inductive Event where
  | serverJoin (ws : Nat)
  | clientJoin (ws : Nat) (clientId : String)
  | message (ws : Nat) (raw : Option Json)
  | socketClose (ws : Nat)

/-- One reactive step of a room.  A message or close event on socket `ws`
runs the handler the room wired on `ws`; a socket the room never wired
(for example a rejected second server connection) dispatches to nothing. -/
def stepRoom (r : RoomState) (ev : Event) : RoomState × List Effect :=
  match ev with
  | Event.serverJoin ws => handleServerConn r ws
  | Event.clientJoin ws clientId => handleClientConn r ws clientId
  | Event.message ws raw =>
    match mapGet r.wiring ws with
    | some Handler.hostHandler => (r, onHostMessage r raw)
    | some (Handler.guestHandler clientId) => (r, onGuestMessage r clientId raw)
    | none => (r, [])
  | Event.socketClose ws =>
    match mapGet r.wiring ws with
    | some Handler.hostHandler => onHostClose r
    | some (Handler.guestHandler clientId) => onGuestClose r clientId
    | none => (r, [])

/-- A fresh `Room` as built by the constructor. -/
def initRoom (id : String) : RoomState :=
  { id := id, serverConn := none, clientConns := [], wiring := [] }

/-- `handleCreateRoom`; `roomId` is the `crypto.randomUUID()` result.
Returns the updated registry and the id sent back in the response. -/
def handleCreateRoom (rooms : List (String × RoomState)) (roomId : String) :
    List (String × RoomState) × String :=
  (mapSet rooms roomId (initRoom roomId), roomId)

/-- A sequence of create-room calls whose generated ids are `ids`. -/
def runCreates (rooms : List (String × RoomState)) (ids : List String) :
    List (String × RoomState) :=
  ids.foldl (fun acc i => (handleCreateRoom acc i).1) rooms

/-- A concrete room used to instantiate the theorems below: host on
socket 1, guests `g1` on socket 2 and `g2` on socket 3, all wired. -/
def demoRoom : RoomState :=
  { id := "room1", serverConn := some 1,
    clientConns := [("g1", 2), ("g2", 3)],
    wiring := [(1, Handler.hostHandler),
               (2, Handler.guestHandler "g1"),
               (3, Handler.guestHandler "g2")] }

/-- `demoRoom` without a host: slot empty, only guest `g1` on socket 2. -/
def hostlessRoom : RoomState :=
  { id := "room2", serverConn := none,
    clientConns := [("g1", 2)],
    wiring := [(2, Handler.guestHandler "g1")] }

/-! ### Association-map lemmas -/

theorem mapGet_mapSet_self [DecidableEq κ] (l : List (κ × α)) (k : κ) (v : α) :
    mapGet (mapSet l k v) k = some v := by
  induction l with
  | nil => simp [mapSet, mapGet]
  | cons a t ih =>
    obtain ⟨a1, a2⟩ := a
    by_cases hak : a1 = k
    · simp [mapSet, mapGet, hak]
    · have hstep : mapSet ((a1, a2) :: t) k v = (a1, a2) :: mapSet t k v := by
        by_cases ht : t.any (fun p => p.1 = k)
        · simp [mapSet, ht, hak]
        · simp [mapSet, ht, hak]
      rw [hstep]
      simpa [mapGet, hak] using ih

theorem mapGet_mapDelete_self [DecidableEq κ] (l : List (κ × α)) (k : κ) :
    mapGet (mapDelete l k) k = none := by
  induction l with
  | nil => simp [mapDelete, mapGet]
  | cons a t ih =>
    obtain ⟨a1, a2⟩ := a
    by_cases hak : a1 = k
    · simpa [mapDelete, hak] using ih
    · simpa [mapDelete, mapGet, hak] using ih

theorem mapGet_mapDelete_ne [DecidableEq κ] (l : List (κ × α)) (k k' : κ) (h : k' ≠ k) :
    mapGet (mapDelete l k) k' = mapGet l k' := by
  induction l with
  | nil => simp [mapDelete]
  | cons a t ih =>
    obtain ⟨a1, a2⟩ := a
    by_cases hak : a1 = k
    · simpa [mapDelete, mapGet, hak, Ne.symm h] using ih
    · simp only [mapDelete, decide_not] at ih
      simp [mapDelete, mapGet, hak, ih]

theorem mapDelete_idem [DecidableEq κ] (l : List (κ × α)) (k : κ) :
    mapDelete (mapDelete l k) k = mapDelete l k := by
  induction l with
  | nil => simp [mapDelete]
  | cons a t ih =>
    obtain ⟨a1, a2⟩ := a
    simp only [mapDelete] at ih
    by_cases hak : a1 = k
    · simp [mapDelete, hak, ih]
    · simp [mapDelete, hak, ih]

theorem mapSet_fresh [DecidableEq κ] (l : List (κ × α)) (k : κ) (v : α)
    (h : k ∉ l.map Prod.fst) :
    mapSet l k v = l ++ [(k, v)] := by
  rw [mapSet, if_neg]
  simp only [List.any_eq_true, decide_eq_true_eq]
  rintro ⟨p, hp, hpk⟩
  exact h (by simpa [hpk] using List.mem_map_of_mem Prod.fst hp)

/-- When the pure view finds a field, the value is an object, so the
runtime access returns it without throwing. -/
theorem jsGetField_of_getField_some (m : Json) (k : String) (v : Json)
    (h : getField m k = some v) : jsGetField m k = Except.ok (some v) := by
  cases m <;> simp_all [getField, jsGetField]

/-- On any parsed value other than `null`, a missing field reads as
`undefined` without throwing. -/
theorem jsGetField_of_getField_none (m : Json) (k : String)
    (h : getField m k = none) (hnn : m ≠ Json.null) :
    jsGetField m k = Except.ok none := by
  cases m <;> simp_all [getField, jsGetField]

/-! ### Claim theorems -/

/-- C1: a parsable message from an attached guest `g` is forwarded to the
host connection (when one is attached) as exactly one envelope, equal to
the parsed payload with the reserved `clientID` field overwritten to `g`
(so a guest cannot make the forwarded envelope carry another guest's id),
and it reaches no guest connection; the room state is unchanged. -/
theorem c1_guest_to_host_routing (s : RoomState) (c h : Nat) (g : String) (m : Json)
    (hw : mapGet s.wiring c = some (Handler.guestHandler g))
    (hh : s.serverConn = some h)
    (hdisj : ∀ p ∈ s.clientConns, p.2 ≠ h) :
    stepRoom s (Event.message c (some m)) = (s, [Effect.send h (setClientID m g)]) ∧
    getField (setClientID m g) "clientID" = some (Json.str g) ∧
    ∀ p ∈ s.clientConns, ∀ pay,
      Effect.send p.2 pay ∉ (stepRoom s (Event.message c (some m))).2 := by
  have hstep : stepRoom s (Event.message c (some m)) =
      (s, [Effect.send h (setClientID m g)]) := by
    simp [stepRoom, hw, onGuestMessage, sendMessageToServer, hh]
  refine ⟨hstep, ?_, ?_⟩
  · simp [setClientID, getField, mapGet_mapSet_self]
  · intro p hp pay
    rw [hstep]
    simp only [List.mem_singleton, Effect.send.injEq, not_and]
    intro hph
    exact absurd hph (hdisj p hp)

/-- C1 witness: guest `g1` of `demoRoom` sends an envelope with one field
`foo = 1`; the host on socket 1 receives it tagged with `clientID = g1`. -/
theorem c1_guest_to_host_routing_witness :
    stepRoom demoRoom (Event.message 2 (some (Json.obj [("foo", Json.num 1)]))) =
      (demoRoom, [Effect.send 1 (setClientID (Json.obj [("foo", Json.num 1)]) "g1")]) ∧
    getField (setClientID (Json.obj [("foo", Json.num 1)]) "g1") "clientID" =
      some (Json.str "g1") ∧
    ∀ p ∈ demoRoom.clientConns, ∀ pay,
      Effect.send p.2 pay ∉
        (stepRoom demoRoom (Event.message 2 (some (Json.obj [("foo", Json.num 1)])))).2 :=
  c1_guest_to_host_routing demoRoom 2 1 "g1" (Json.obj [("foo", Json.num 1)])
    rfl rfl (by decide)

/-- C2: a parsable host envelope whose `clientID` field holds a guest id
`g` (a relay-generated id, hence nonempty) mapped to connection `gc` is
forwarded verbatim to `gc` and to no other connection; when `g` is not in
the guest map, the only effect is a log entry — nothing is sent to any
connection and no error reaches the host. The room state is unchanged in
both cases. -/
theorem c2_host_to_guest_routing (s : RoomState) (c : Nat) (g : String) (m : Json)
    (hw : mapGet s.wiring c = some Handler.hostHandler)
    (hfield : getField m "clientID" = some (Json.str g))
    (hg : g ≠ "") :
    (∀ gc, mapGet s.clientConns g = some gc →
      stepRoom s (Event.message c (some m)) = (s, [Effect.send gc m])) ∧
    (mapGet s.clientConns g = none →
      stepRoom s (Event.message c (some m)) = (s, [Effect.log "unknown client"])) := by
  have hjs := jsGetField_of_getField_some m "clientID" (Json.str g) hfield
  constructor
  · intro gc hgc
    simp [stepRoom, hw, onHostMessage, hjs, truthy, hg, sendMessageToClient, hgc]
  · intro hnone
    simp [stepRoom, hw, onHostMessage, hjs, truthy, hg, sendMessageToClient, hnone]

/-- C2 witness: the host of `demoRoom` targets `g1` (delivered verbatim
to socket 2) and, in `hostlessRoom` extended with no guests, an unknown
id; the unknown case only logs. -/
theorem c2_host_to_guest_routing_witness :
    (∀ gc, mapGet demoRoom.clientConns "g1" = some gc →
      stepRoom demoRoom
          (Event.message 1 (some (Json.obj [("foo", Json.num 2), ("clientID", Json.str "g1")]))) =
        (demoRoom, [Effect.send gc (Json.obj [("foo", Json.num 2), ("clientID", Json.str "g1")])])) ∧
    (mapGet demoRoom.clientConns "g1" = none →
      stepRoom demoRoom
          (Event.message 1 (some (Json.obj [("foo", Json.num 2), ("clientID", Json.str "g1")]))) =
        (demoRoom, [Effect.log "unknown client"])) :=
  c2_host_to_guest_routing demoRoom 1 "g1"
    (Json.obj [("foo", Json.num 2), ("clientID", Json.str "g1")]) rfl rfl (by decide)

/-- C3: the host slot holds at most one connection: a server join while
the slot is occupied leaves the room state (slot and guest map) unchanged
and the new socket receives exactly one error envelope and is closed; a
server join on an empty slot stores the socket and wires its handlers. -/
theorem c3_at_most_one_host (s : RoomState) (h c : Nat) :
    (s.serverConn = some h →
      stepRoom s (Event.serverJoin c) =
        (s, [Effect.log "rejected server conn", Effect.send c serverExistsError,
             Effect.close c])) ∧
    (s.serverConn = none →
      stepRoom s (Event.serverJoin c) =
        ({ s with serverConn := some c, wiring := mapSet s.wiring c Handler.hostHandler },
         [Effect.log "registered server conn"])) := by
  constructor
  · intro hh
    simp [stepRoom, handleServerConn, hh]
  · intro hh
    simp [stepRoom, handleServerConn, hh]

/-- C3 witness: a second server join on `demoRoom` is rejected with the
error envelope and a close, leaving the state unchanged; a server join on
`hostlessRoom` fills the slot. -/
theorem c3_at_most_one_host_witness :
    stepRoom demoRoom (Event.serverJoin 9) =
      (demoRoom, [Effect.log "rejected server conn", Effect.send 9 serverExistsError,
                  Effect.close 9]) ∧
    stepRoom hostlessRoom (Event.serverJoin 9) =
      ({ hostlessRoom with
          serverConn := some 9
          wiring := mapSet hostlessRoom.wiring 9 Handler.hostHandler },
       [Effect.log "registered server conn"]) :=
  ⟨(c3_at_most_one_host demoRoom 1 9).1 rfl,
   (c3_at_most_one_host hostlessRoom 1 9).2 rfl⟩

/-- C4: when the host connection closes, the host slot is cleared, every
currently-mapped guest connection receives a close, and the guest map
becomes empty — for any room state with any number of guests. -/
theorem c4_host_close_cascade (s : RoomState) (hconn : Nat)
    (hw : mapGet s.wiring hconn = some Handler.hostHandler) :
    (stepRoom s (Event.socketClose hconn)).1.serverConn = none ∧
    (stepRoom s (Event.socketClose hconn)).1.clientConns = [] ∧
    (stepRoom s (Event.socketClose hconn)).2 =
      Effect.log "server conn closed" :: s.clientConns.map (fun p => Effect.close p.2) ∧
    ∀ p ∈ s.clientConns, Effect.close p.2 ∈ (stepRoom s (Event.socketClose hconn)).2 := by
  have hstep : stepRoom s (Event.socketClose hconn) = onHostClose s := by
    simp [stepRoom, hw]
  rw [hstep]
  refine ⟨rfl, rfl, rfl, ?_⟩
  intro p hp
  exact List.mem_cons_of_mem _ (List.mem_map_of_mem _ hp)

/-- C4 witness: closing the host socket of `demoRoom` clears the slot,
closes guest sockets 2 and 3, and empties the guest map. -/
theorem c4_host_close_cascade_witness :
    (stepRoom demoRoom (Event.socketClose 1)).1.serverConn = none ∧
    (stepRoom demoRoom (Event.socketClose 1)).1.clientConns = [] ∧
    (stepRoom demoRoom (Event.socketClose 1)).2 =
      Effect.log "server conn closed" ::
        demoRoom.clientConns.map (fun p => Effect.close p.2) ∧
    ∀ p ∈ demoRoom.clientConns,
      Effect.close p.2 ∈ (stepRoom demoRoom (Event.socketClose 1)).2 :=
  c4_host_close_cascade demoRoom 1 rfl

/-- C5 counterexample: the claim says every unroutable condition is
logged, including a host envelope missing the target guest identifier; on
`demoRoom` the handler produces no effect at all for such an envelope —
in particular no log entry. -/
theorem c5_counterexample_missing_target_not_logged :
    (stepRoom demoRoom (Event.message 1 (some (Json.obj [("bar", Json.num 3)])))).2 = [] ∧
    ¬ ∃ t, Effect.log t ∈
      (stepRoom demoRoom (Event.message 1 (some (Json.obj [("bar", Json.num 3)])))).2 := by
  have h0 : (stepRoom demoRoom (Event.message 1 (some (Json.obj [("bar", Json.num 3)])))).2
      = [] := rfl
  exact ⟨h0, by simp [h0]⟩

/-- C5 (amended): every unroutable message is dropped with the room state
unchanged and nothing sent to the sender or any other connection; a host
envelope whose target id is absent is dropped silently (not logged)
unless the parsed payload is a bare `null`, in which case the property
access throws and the catch logs; an unknown target id and a guest
message with no host attached each produce exactly one log entry. -/
theorem c5_unroutable_dropped (s : RoomState) (c : Nat) (m : Json) (g : String) :
    (mapGet s.wiring c = some Handler.hostHandler →
      getField m "clientID" = none → m ≠ Json.null →
      stepRoom s (Event.message c (some m)) = (s, [])) ∧
    (mapGet s.wiring c = some Handler.hostHandler →
      stepRoom s (Event.message c (some Json.null)) =
        (s, [Effect.log "error processing message from server"])) ∧
    (mapGet s.wiring c = some Handler.hostHandler →
      getField m "clientID" = some (Json.str g) → g ≠ "" →
      mapGet s.clientConns g = none →
      stepRoom s (Event.message c (some m)) = (s, [Effect.log "unknown client"])) ∧
    (mapGet s.wiring c = some (Handler.guestHandler g) →
      s.serverConn = none →
      stepRoom s (Event.message c (some m)) = (s, [Effect.log "no server connection"])) := by
  refine ⟨?_, ?_, ?_, ?_⟩
  · intro hw hf hnn
    simp [stepRoom, hw, onHostMessage, jsGetField_of_getField_none m "clientID" hf hnn]
  · intro hw
    simp [stepRoom, hw, onHostMessage, jsGetField]
  · intro hw hf hg hn
    simp [stepRoom, hw, onHostMessage,
      jsGetField_of_getField_some m "clientID" (Json.str g) hf,
      truthy, hg, sendMessageToClient, hn]
  · intro hw hn
    simp [stepRoom, hw, onGuestMessage, sendMessageToServer, hn]

/-- C5 witness: on `demoRoom`, a host envelope without a target id yields
no effect while a bare `null` payload yields only the catch log; a host
envelope targeting the unknown id `zz` yields only a log entry; on
`hostlessRoom`, a guest message yields only a log entry. -/
theorem c5_unroutable_dropped_witness :
    stepRoom demoRoom (Event.message 1 (some (Json.obj [("foo", Json.num 1)]))) =
      (demoRoom, []) ∧
    stepRoom demoRoom (Event.message 1 (some Json.null)) =
      (demoRoom, [Effect.log "error processing message from server"]) ∧
    stepRoom demoRoom (Event.message 1 (some (Json.obj [("clientID", Json.str "zz")]))) =
      (demoRoom, [Effect.log "unknown client"]) ∧
    stepRoom hostlessRoom (Event.message 2 (some (Json.obj [("foo", Json.num 1)]))) =
      (hostlessRoom, [Effect.log "no server connection"]) :=
  ⟨(c5_unroutable_dropped demoRoom 1 (Json.obj [("foo", Json.num 1)]) "zz").1
     rfl rfl (by intro h; exact Json.noConfusion h),
   (c5_unroutable_dropped demoRoom 1 (Json.obj [("foo", Json.num 1)]) "zz").2.1 rfl,
   (c5_unroutable_dropped demoRoom 1 (Json.obj [("clientID", Json.str "zz")]) "zz").2.2.1
     rfl rfl (by decide) (by decide),
   (c5_unroutable_dropped hostlessRoom 2 (Json.obj [("foo", Json.num 1)]) "g1").2.2.2
     rfl rfl⟩

/-- Keys of the registry after a sequence of create-room calls with fresh
ids: the old keys followed by the new ids, in order. -/
theorem runCreates_keys (rooms0 : List (String × RoomState)) (ids : List String)
    (h : (rooms0.map Prod.fst ++ ids).Nodup) :
    (runCreates rooms0 ids).map Prod.fst = rooms0.map Prod.fst ++ ids := by
  induction ids generalizing rooms0 with
  | nil => simp [runCreates]
  | cons i t ih =>
    have hi : i ∉ rooms0.map Prod.fst := by
      rcases List.nodup_append.mp h with ⟨-, -, hdisj⟩
      intro hmem
      exact hdisj hmem (List.mem_cons_self i t)
    have hrec : runCreates rooms0 (i :: t) = runCreates (rooms0 ++ [(i, initRoom i)]) t := by
      simp [runCreates, handleCreateRoom, mapSet_fresh rooms0 i (initRoom i) hi]
    have h2 : ((rooms0 ++ [(i, initRoom i)]).map Prod.fst ++ t).Nodup := by
      simpa [List.append_assoc] using h
    rw [hrec, ih (rooms0 ++ [(i, initRoom i)]) h2]
    simp [List.append_assoc]

/-- C6: with the platform id generator supplying fresh identifiers (ids
pairwise distinct and distinct from every key already in the registry),
every sequence of create-room calls returns pairwise-distinct ids, the
registry keys afterwards are exactly the old keys followed by the new
ids — so nothing is ever evicted and no mapped id is reused — and every
returned id is a key of the resulting registry. -/
theorem c6_create_room_ids (rooms0 : List (String × RoomState)) (ids : List String)
    (h : (rooms0.map Prod.fst ++ ids).Nodup) :
    ids.Nodup ∧
    (runCreates rooms0 ids).map Prod.fst = rooms0.map Prod.fst ++ ids ∧
    ∀ i ∈ ids, i ∈ (runCreates rooms0 ids).map Prod.fst := by
  have hkeys := runCreates_keys rooms0 ids h
  refine ⟨(List.nodup_append.mp h).2.1, hkeys, ?_⟩
  intro i hi
  rw [hkeys]
  exact List.mem_append_right _ hi

/-- C6 witness: three create-room calls on an empty registry with fresh
ids a, b, c. -/
theorem c6_create_room_ids_witness :
    (["a", "b", "c"] : List String).Nodup ∧
    (runCreates [] ["a", "b", "c"]).map Prod.fst =
      ([] : List (String × RoomState)).map Prod.fst ++ ["a", "b", "c"] ∧
    ∀ i ∈ (["a", "b", "c"] : List String),
      i ∈ (runCreates [] ["a", "b", "c"]).map Prod.fst :=
  c6_create_room_ids [] ["a", "b", "c"] (by decide)

/-- C7: an unparsable wire message on any wired connection (host or
guest) leaves the room state unchanged and produces exactly one log
entry — the sending socket is not closed and no other connection receives
anything. -/
theorem c7_malformed_dropped (s : RoomState) (c : Nat) (hd : Handler)
    (hw : mapGet s.wiring c = some hd) :
    ∃ t, stepRoom s (Event.message c none) = (s, [Effect.log t]) := by
  cases hd with
  | hostHandler =>
    exact ⟨"error processing message from server", by simp [stepRoom, hw, onHostMessage]⟩
  | guestHandler g =>
    exact ⟨"error processing message from client", by simp [stepRoom, hw, onGuestMessage]⟩

/-- C7 witness: unparsable data on the host socket of `demoRoom` only
logs. -/
theorem c7_malformed_dropped_witness :
    ∃ t, stepRoom demoRoom (Event.message 1 none) = (demoRoom, [Effect.log t]) :=
  c7_malformed_dropped demoRoom 1 Handler.hostHandler rfl

/-- C8: closing guest `g` removes exactly its entry from the guest map —
afterwards `g` is no longer routable, the host slot is untouched and
every other guest id maps as before — and the handler is idempotent:
a second close event for the same socket leaves the state fixed. -/
theorem c8_guest_close_idempotent (s : RoomState) (c : Nat) (g : String)
    (hw : mapGet s.wiring c = some (Handler.guestHandler g)) :
    (stepRoom s (Event.socketClose c)).1 =
      { s with clientConns := mapDelete s.clientConns g } ∧
    mapGet (stepRoom s (Event.socketClose c)).1.clientConns g = none ∧
    (stepRoom (stepRoom s (Event.socketClose c)).1 (Event.socketClose c)).1 =
      (stepRoom s (Event.socketClose c)).1 ∧
    (stepRoom s (Event.socketClose c)).1.serverConn = s.serverConn ∧
    ∀ g2, g2 ≠ g →
      mapGet (stepRoom s (Event.socketClose c)).1.clientConns g2 =
        mapGet s.clientConns g2 := by
  have h1 : (stepRoom s (Event.socketClose c)).1 =
      { s with clientConns := mapDelete s.clientConns g } := by
    simp [stepRoom, hw, onGuestClose]
  refine ⟨h1, ?_, ?_, ?_, ?_⟩
  · rw [h1]
    exact mapGet_mapDelete_self _ _
  · rw [h1]
    have hw1 : mapGet ({ s with clientConns := mapDelete s.clientConns g } : RoomState).wiring c
        = some (Handler.guestHandler g) := hw
    simp [stepRoom, hw1, onGuestClose, mapDelete_idem]
  · rw [h1]
  · intro g2 hg2
    rw [h1]
    exact mapGet_mapDelete_ne _ _ _ hg2

/-- C8 witness: closing guest `g1` of `demoRoom` (socket 2). -/
theorem c8_guest_close_idempotent_witness :
    (stepRoom demoRoom (Event.socketClose 2)).1 =
      { demoRoom with clientConns := mapDelete demoRoom.clientConns "g1" } ∧
    mapGet (stepRoom demoRoom (Event.socketClose 2)).1.clientConns "g1" = none ∧
    (stepRoom (stepRoom demoRoom (Event.socketClose 2)).1 (Event.socketClose 2)).1 =
      (stepRoom demoRoom (Event.socketClose 2)).1 ∧
    (stepRoom demoRoom (Event.socketClose 2)).1.serverConn = demoRoom.serverConn ∧
    ∀ g2, g2 ≠ "g1" →
      mapGet (stepRoom demoRoom (Event.socketClose 2)).1.clientConns g2 =
        mapGet demoRoom.clientConns g2 :=
  c8_guest_close_idempotent demoRoom 2 "g1" rfl

/-- C9: a parsable host envelope whose `clientID` field holds a falsy
value (empty string, 0, false, null) is treated exactly like a structured
envelope with the field absent: both produce no effect at all — no
lookup, no forwarding, no log — and leave the room state unchanged.
(A field-carrying envelope is necessarily an object, so its property
access never throws; the absent-field comparison is over non-`null`
payloads, since a parsed bare `null` throws at the access and is logged
by the catch instead.) -/
theorem c9_falsy_target_like_absent (s : RoomState) (c : Nat) (m m2 v : Json)
    (hw : mapGet s.wiring c = some Handler.hostHandler)
    (hfield : getField m "clientID" = some v)
    (hfalsy : truthy v = false)
    (habsent : getField m2 "clientID" = none)
    (hnn : m2 ≠ Json.null) :
    stepRoom s (Event.message c (some m)) = (s, []) ∧
    stepRoom s (Event.message c (some m2)) = (s, []) := by
  constructor
  · simp [stepRoom, hw, onHostMessage,
      jsGetField_of_getField_some m "clientID" v hfield, hfalsy]
  · simp [stepRoom, hw, onHostMessage,
      jsGetField_of_getField_none m2 "clientID" habsent hnn]

/-- C9 witness: on `demoRoom`, a host envelope with `clientID = 0` and
one with no `clientID` field both produce no effect. -/
theorem c9_falsy_target_like_absent_witness :
    stepRoom demoRoom (Event.message 1 (some (Json.obj [("clientID", Json.num 0)]))) =
      (demoRoom, []) ∧
    stepRoom demoRoom (Event.message 1 (some (Json.obj [("baz", Json.num 1)]))) =
      (demoRoom, []) :=
  c9_falsy_target_like_absent demoRoom 1 (Json.obj [("clientID", Json.num 0)])
    (Json.obj [("baz", Json.num 1)]) (Json.num 0) rfl rfl rfl rfl
    (by intro h; exact Json.noConfusion h)

/-- C10: a server join rejected because the slot is occupied wires no
handlers on the rejected socket and leaves the state unchanged, so every
later message or close event on that socket dispatches to nothing: the
host slot and guest map can never be modified through it — in particular
its close does not trigger the host-disconnect cascade. -/
theorem c10_rejected_host_inert (s : RoomState) (h c : Nat)
    (hocc : s.serverConn = some h)
    (hw : mapGet s.wiring c = none) :
    stepRoom s (Event.serverJoin c) =
      (s, [Effect.log "rejected server conn", Effect.send c serverExistsError,
           Effect.close c]) ∧
    (∀ raw, stepRoom s (Event.message c raw) = (s, [])) ∧
    stepRoom s (Event.socketClose c) = (s, []) := by
  refine ⟨?_, ?_, ?_⟩
  · simp [stepRoom, handleServerConn, hocc]
  · intro raw
    simp [stepRoom, hw]
  · simp [stepRoom, hw]

/-- C10 witness: socket 9 is rejected as a second server connection on
`demoRoom`; a message and a close on socket 9 afterwards do nothing. -/
theorem c10_rejected_host_inert_witness :
    stepRoom demoRoom (Event.serverJoin 9) =
      (demoRoom, [Effect.log "rejected server conn", Effect.send 9 serverExistsError,
                  Effect.close 9]) ∧
    stepRoom demoRoom (Event.message 9 (some Json.null)) = (demoRoom, []) ∧
    stepRoom demoRoom (Event.socketClose 9) = (demoRoom, []) :=
  ⟨(c10_rejected_host_inert demoRoom 1 9 rfl rfl).1,
   (c10_rejected_host_inert demoRoom 1 9 rfl rfl).2.1 (some Json.null),
   (c10_rejected_host_inert demoRoom 1 9 rfl rfl).2.2⟩

end SignalRelay
